import Mathlib

/-!
Verification development for the Smart Study Space repository.

The repository has two source files:
* a browser-side flow-state prediction module (state classification,
  temporal pattern aggregation, forecast generation), and
* an embedded sensing sketch (adaptive heartbeat detection, HRV).

This file gives a shallow embedding of the algorithmic core of both and
proves/refutes the frozen specification claims about them.

Modelling conventions:
* JavaScript / C floating point numbers are idealised as exact
  arithmetic: `ℚ` wherever the source only adds, multiplies, divides and
  compares, and `ℝ` at the points where the source takes a square root.
* C integer division on non-negative operands is `Nat` division.
* Timestamps are idealised as (dayOfWeek, hourOfDay) pairs plus whole
  hours of offset (no daylight-saving discontinuities).
-/

namespace StudySpace

/-- The closed state enumeration used by both subsystems
(source: strings "Flow State", "Normal Learning", "Standby", "Distracted"). -/
inductive StudyState where
  | FlowState
  | NormalLearning
  | Standby
  | Distracted
deriving DecidableEq, Repr

open StudyState

/-- Embeds `classifyStateForPrediction(noise, bpm, rrInterval)`
(part_000 lines 147-170), with the `STATE_THRESHOLDS` constants inlined. -/
def classifyStateForPrediction (noise : ℚ) (bpm : ℤ) (rrInterval : ℚ) : StudyState :=
  if bpm < 40 ∨ bpm > 200 then
    Standby
  else
    let isQuiet := noise < 55
    let hasGoodHRV := rrInterval > 700
    let hasOptimalBPM := 60 ≤ bpm ∧ bpm ≤ 80
    let isGoodPhysio := hasGoodHRV ∨ hasOptimalBPM
    if isQuiet ∧ isGoodPhysio then FlowState
    else if ¬isQuiet ∧ isGoodPhysio then NormalLearning
    else if isQuiet ∧ ¬isGoodPhysio then Standby
    else Distracted

/-- Modelled from the spec: the four-quadrant rule of section 4.3,
written independently of the source for the refinement comparison
(quiet∧good → FlowState; loud∧good → NormalLearning; quiet∧¬good →
Standby; loud∧¬good → Distracted). -/
def quadrantClassify (noise : ℚ) (bpm : ℤ) (rrInterval : ℚ) : StudyState :=
  match decide (noise < 55), decide (rrInterval > 700 ∨ (60 ≤ bpm ∧ bpm ≤ 80)) with
  | true, true => FlowState
  | false, true => NormalLearning
  | true, false => Standby
  | false, false => Distracted

/-- Modelled from the spec: the whole classifier of section 4.3
(out-of-range heart rate forces Standby, otherwise the quadrant rule). -/
def specClassify (noise : ℚ) (bpm : ℤ) (rrInterval : ℚ) : StudyState :=
  if bpm < 40 ∨ bpm > 200 then Standby else quadrantClassify noise bpm rrInterval

/-- One parsed ThingSpeak feed row, after the `parseFloat`/`parseInt`
defaulting (missing or non-numeric fields have already become 0).
Timestamps are represented by their derived (dayOfWeek, hour). -/
structure Feed where
  dayOfWeek : ℕ
  hour : ℕ
  noise : ℚ
  rrInterval : ℚ
  bpmAvg : ℤ
  bpmRealtime : ℤ
deriving DecidableEq, Repr

/-- One cleaned historical row as materialized by
`fetchPredictionHistoricalData` (part_000 lines 109-132). -/
structure Entry where
  dayOfWeek : ℕ
  hour : ℕ
  noise : ℚ
  bpm : ℤ
  rrInterval : ℚ
  state : StudyState
deriving DecidableEq, Repr

/-- The per-row materialization step of `fetchPredictionHistoricalData`
(part_000 lines 109-132): choose the BPM (averaged if positive, else
instantaneous) and classify the state. -/
def cleanRow (f : Feed) : Entry :=
  let bpm := if f.bpmAvg > 0 then f.bpmAvg else f.bpmRealtime
  { dayOfWeek := f.dayOfWeek
    hour := f.hour
    noise := f.noise
    bpm := bpm
    rrInterval := f.rrInterval
    state := classifyStateForPrediction f.noise bpm f.rrInterval }

/-- The map-then-filter of `fetchPredictionHistoricalData`
(part_000 lines 109-134): rows with BPM outside [40, 200] are dropped. -/
def fetchClean (feeds : List Feed) : List Entry :=
  (feeds.map cleanRow).filter (fun e => decide (40 ≤ e.bpm ∧ e.bpm ≤ 200))

/-- A PatternCell of `analyzeTemporalPatterns` (part_000 lines 173-245).
`samples` records the per-entry states pushed into `pattern.samples`
(only the state component is ever read back). -/
structure Cell where
  day : ℕ
  hour : ℕ
  flowStateCount : ℕ
  totalCount : ℕ
  noiseSum : ℚ
  bpmSum : ℚ
  rrIntervalSum : ℚ
  samples : List StudyState
  avgNoise : ℚ
  avgBPM : ℚ
  avgRRInterval : ℚ
  probability : ℚ
deriving DecidableEq, Repr

/-- Whether an entry is aggregated into the (day, hour) cell. -/
def entryMatches (k : ℕ × ℕ) (e : Entry) : Bool :=
  e.dayOfWeek == k.1 && e.hour == k.2

/-- The Bernoulli flow indicator used in the variance computation
(part_000 line 228: `sample.state === 'Flow State' ? 1 : 0`). -/
def flowIndicator (st : StudyState) : ℚ :=
  if st = FlowState then 1 else 0

/-- The aggregation and per-cell statistics of `analyzeTemporalPatterns`
(part_000 lines 173-240), for one (day, hour) key.  All 168 cells exist;
empty cells carry zeroed statistics, exactly as the source initialises
and then (for `totalCount = 0`) leaves them. -/
def analyzeCell (data : List Entry) (k : ℕ × ℕ) : Cell :=
  let es := data.filter (entryMatches k)
  let n := es.length
  let f := (es.filter (fun e => decide (e.state = FlowState))).length
  { day := k.1
    hour := k.2
    flowStateCount := f
    totalCount := n
    noiseSum := (es.map (fun e => e.noise)).sum
    bpmSum := (es.map (fun e => (e.bpm : ℚ))).sum
    rrIntervalSum := (es.map (fun e => e.rrInterval)).sum
    samples := es.map (fun e => e.state)
    avgNoise := if 0 < n then (es.map (fun e => e.noise)).sum / n else 0
    avgBPM := if 0 < n then (es.map (fun e => (e.bpm : ℚ))).sum / n else 0
    avgRRInterval := if 0 < n then (es.map (fun e => e.rrInterval)).sum / n else 0
    probability := if 0 < n then (f : ℚ) / n else 0 }

/-- The population variance of the flow indicator around the cell's own
probability (part_000 lines 227-230); only evaluated by the source when
`totalCount > 0`. -/
def cellVariance (c : Cell) : ℚ :=
  ((c.samples.map (fun st => (flowIndicator st - c.probability) ^ 2)).sum) / c.totalCount

/-- `pattern.consistency` (part_000 lines 232 and 238):
`1 - Math.sqrt(variance)` for a non-empty cell, `0` for an empty one. -/
noncomputable def consistency (c : Cell) : ℝ :=
  if 0 < c.totalCount then 1 - Real.sqrt (cellVariance c) else 0

/-- `calculatePredictionConfidence` (part_000 lines 293-324):
zero below 10 samples, otherwise the rounded weighted combination
(0.4 sample factor, 0.3 consistency, 0.3 probability, times 100).
`round` is Lean's round-half-up, matching `Math.round`. -/
noncomputable def calculatePredictionConfidence (c : Cell) : ℤ :=
  if c.totalCount < 10 then 0
  else
    round ((min ((c.totalCount : ℝ) / 50) 1 * (4 / 10)
      + consistency c * (3 / 10) + (c.probability : ℝ) * (3 / 10)) * 100)

/-- One prediction as pushed by `generateFlowStatePredictions`
(part_000 lines 265-277); the `time` field is represented by
(dayOfWeek, hour, hoursFromNow). -/
structure Prediction where
  dayOfWeek : ℕ
  hour : ℕ
  probability : ℚ
  confidence : ℤ
  expectedNoise : ℚ
  expectedBPM : ℚ
  expectedRRInterval : ℚ
  sampleSize : ℕ
  consistency : ℝ
  hoursFromNow : ℕ

/-- The (dayOfWeek, hour) of `now + i` whole hours, i.e.
`futureTime.getDay()` and `futureTime.getHours()` of
part_000 lines 254-256 for a clock at an exact hour boundary. -/
def futureKey (now : ℕ × ℕ) (i : ℕ) : ℕ × ℕ :=
  ((now.1 + (now.2 + i) / 24) % 7, (now.2 + i) % 24)

/-- The record pushed by `predictions.push` (part_000 lines 265-277)
for the slot `i` hours from now. -/
noncomputable def mkPrediction (pats : ℕ × ℕ → Cell) (now : ℕ × ℕ) (i : ℕ) : Prediction :=
  let k := futureKey now i
  let c := pats k
  { dayOfWeek := k.1
    hour := k.2
    probability := c.probability
    confidence := calculatePredictionConfidence c
    expectedNoise := c.avgNoise
    expectedBPM := c.avgBPM
    expectedRRInterval := c.avgRRInterval
    sampleSize := c.totalCount
    consistency := consistency c
    hoursFromNow := i }

/-- The candidate list built by the loop of `generateFlowStatePredictions`
(part_000 lines 253-279): hours 1..24 from now, admitted iff the matching
cell's probability reaches the 0.30 threshold, in encounter order. -/
noncomputable def candidates (pats : ℕ × ℕ → Cell) (now : ℕ × ℕ) : List Prediction :=
  (List.range 24).filterMap (fun j =>
    if (3 / 10 : ℚ) ≤ (pats (futureKey now (j + 1))).probability then
      some (mkPrediction pats now (j + 1))
    else none)

/-- The combined score `probability * (confidence / 100)` used by the
sort comparator (part_000 lines 282-286). -/
def predScore (p : Prediction) : ℚ :=
  p.probability * ((p.confidence : ℚ) / 100)

/-- The ordering realised by the comparator
`(a, b) => scoreB - scoreA`: `a` may precede `b` iff `a`'s score is at
least `b`'s. -/
def predGE (a b : Prediction) : Prop :=
  predScore b ≤ predScore a

instance : DecidableRel predGE := fun a b =>
  if h : predScore b ≤ predScore a then .isTrue h else .isFalse h

instance : IsTotal Prediction predGE := ⟨fun a b => le_total (predScore b) (predScore a)⟩

instance : IsTrans Prediction predGE := ⟨fun _ _ _ h h' => le_trans h' h⟩

/-- `generateFlowStatePredictions` (part_000 lines 248-290): build the
candidates, sort them descending by combined score, keep the top 5.
ECMAScript 2019 `Array.prototype.sort` is a stable sort, and with the
total preorder `predGE` its result is exactly the stable sorted
permutation, which `List.insertionSort` produces. -/
noncomputable def generateFlowStatePredictions (pats : ℕ × ℕ → Cell) (now : ℕ × ℕ) :
    List Prediction :=
  (List.insertionSort predGE (candidates pats now)).take 5

/-- `calculateOverallConfidence` (part_000 lines 326-339). -/
def calculateOverallConfidence (preds : List Prediction) (dataPoints : ℕ) : ℤ :=
  if preds.length = 0 then 0
  else
    round (((preds.map (fun p => (p.confidence : ℚ))).sum / preds.length) * (7 / 10)
      + min ((dataPoints : ℚ) / 500) 1 * 30)

/-- `assessDataQuality` (part_000 lines 342-348). -/
def assessDataQuality (dataPoints : ℕ) : String :=
  if dataPoints < 100 then "insufficient"
  else if dataPoints < 300 then "low"
  else if dataPoints < 800 then "moderate"
  else if dataPoints < 1500 then "good"
  else "excellent"

/-- The module-level `predictionData` object (part_000 lines 35-40);
`lastUpdate` is not modelled (wall-clock only). -/
structure PredictionData where
  predictions : List Prediction
  confidence : ℤ
  dataQuality : String

/-- The initial `predictionData` value (part_000 lines 35-40). -/
def initialPredictionData : PredictionData :=
  { predictions := [], confidence := 0, dataQuality := "insufficient" }

/-- `runPredictionAnalysis` (part_000 lines 43-87) given the already
fetched-and-cleaned historical rows (`none` models a failed fetch).
Returns the run's result and the new stored `predictionData`; on the
insufficient-data path the source returns null without touching the
stored object. -/
noncomputable def runPredictionAnalysis (data : Option (List Entry)) (now : ℕ × ℕ)
    (st : PredictionData) : Option (List Prediction) × PredictionData :=
  match data with
  | none => (none, st)
  | some d =>
    if d.length < 100 then (none, st)
    else
      let preds := generateFlowStatePredictions (analyzeCell d) now
      (some preds,
        { predictions := preds
          confidence := calculateOverallConfidence preds d.length
          dataQuality := assessDataQuality d.length })

/-! ### Sensing node: adaptive beat detection and HRV
(Smart_Study_Space.ino).  Unsigned C quantities are `ℕ`; `millis()` is
an idealised monotone millisecond clock.  The fixed-size C arrays
(`rates[4]`, `rrIntervals[15]`, `irWindow[30]`) are lists indexed with
`List.set`; the globals and the function-static locals of
`detectHeartBeat_Adaptive` together form the detector state. -/

/-- The mutable state of the heart sensing path: the globals of
Smart_Study_Space.ino lines 31-71 that the claims touch, plus the
static locals of `detectHeartBeat_Adaptive` (lines 398-401).  The
derived floats `hrv_SDNN`/`hrv_RMSSD` are not stored here; they are
`calculateHRV` of the interval window (see `calculateHRV`). -/
structure SensorState where
  irValue : ℕ
  fingerDetected : Bool
  beatsPerMinute : ℕ
  beatAvg : ℕ
  beatCount : ℕ
  rates : List ℕ
  rateSpot : ℕ
  lastBeat : ℕ
  rrIntervals : List ℕ
  rrIndex : ℕ
  hrvSampleCount : ℕ
  irWindow : List ℕ
  irWindowIndex : ℕ
  irWindowFull : Bool
  irBaseline : ℕ
  irAmplitude : ℕ
  irAC : ℕ
  stableReadings : ℕ
  beatDetected : Bool
  lastValue : ℕ
  inPulse : Bool
  pulseStartTime : ℕ
  peakValue : ℕ
deriving DecidableEq, Repr

/-- `calculateACDC` (ino lines 376-394) on the sliding window:
returns (irBaseline, irAmplitude, irAC).  The baseline divides by the
window size 30 (integer division); the scan for max/min starts from
`irWindow[0]`. -/
def calculateACDC (w : List ℕ) : ℕ × ℕ × ℕ :=
  let mx := w.foldl max (w.headD 0)
  let mn := w.foldl min (w.headD 0)
  let baseline := w.sum / 30
  let amplitude := mx - mn
  (baseline, amplitude, amplitude / 2)

/-- The adaptive threshold `irBaseline + (irAC * 3 / 10)` of ino line
411 (C integer division truncates). -/
def adaptiveThreshold (irBaseline irAC : ℕ) : ℕ :=
  irBaseline + irAC * 3 / 10

/-- The mean of the accepted inter-beat intervals (ino lines 483-487). -/
def hrvMean (l : List ℕ) : ℚ :=
  (l.map (fun r : ℕ => (r : ℚ))).sum / l.length

/-- The population variance of the intervals (ino lines 489-494):
sum of squared deviations divided by the sample count. -/
def hrvVariance (l : List ℕ) : ℚ :=
  (l.map (fun r : ℕ => ((r : ℚ) - hrvMean l) ^ 2)).sum / l.length

/-- The mean squared successive difference (ino lines 497-505):
`N - 1` differences of consecutive intervals in buffer order. -/
def hrvMeanSqDiff (l : List ℕ) : ℚ :=
  ((l.zip l.tail).map (fun ab : ℕ × ℕ => ((ab.2 : ℚ) - (ab.1 : ℚ)) ^ 2)).sum / (l.length - 1)

/-- `calculateHRV` (ino lines 476-509) as a function of the first
`hrvSampleCount` stored intervals: (SDNN, RMSSD), both zero below 5
samples. -/
noncomputable def calculateHRV (l : List ℕ) : ℝ × ℝ :=
  if l.length < 5 then (0, 0)
  else
    (Real.sqrt (hrvVariance l),
      if 0 < l.length - 1 then Real.sqrt (hrvMeanSqDiff l) else 0)

/-- The admission block of the falling edge (ino lines 439-464):
store the beat in the rate ring, push the interval into the HRV ring,
advance both ring indices, recompute the rolling average over the
positive rate entries.  `(byte)beatsPerMinute` is the mod-256 cast. -/
def beatAdmit (s : SensorState) (bpm delta : ℕ) : SensorState :=
  let rates := s.rates.set s.rateSpot (bpm % 256)
  let rr := s.rrIntervals.set s.rrIndex delta
  let rrIndex := (s.rrIndex + 1) % 15
  let hrvCount :=
    if rrIndex = 0 then 15
    else if s.hrvSampleCount < 15 then s.hrvSampleCount + 1
    else s.hrvSampleCount
  let rateSpot := (s.rateSpot + 1) % 4
  let valid := rates.filter (fun x => decide (0 < x))
  let beatAvg := if 0 < valid.length then valid.sum / valid.length else 0
  { s with
    rates := rates
    rrIntervals := rr
    rrIndex := rrIndex
    hrvSampleCount := hrvCount
    rateSpot := rateSpot
    beatAvg := beatAvg
    beatDetected := true }

/-- The falling-edge branch of `detectHeartBeat_Adaptive`
(ino lines 428-469): leave the pulse, compute the instantaneous BPM when
the previous beat time is set and the gap is strictly between 400 and
3000 ms, admit it when it lies in [45, 150], and always record the beat
time. -/
def fallingEdge (s : SensorState) (now : ℕ) : SensorState :=
  let delta := now - s.lastBeat
  let s1 :=
    if 0 < s.lastBeat ∧ 400 < delta ∧ delta < 3000 then
      let bpm := 60000 / delta
      let s2 := { s with beatsPerMinute := bpm, beatCount := s.beatCount + 1 }
      if 45 ≤ bpm ∧ bpm ≤ 150 then beatAdmit s2 bpm delta else s2
    else s
  { s1 with inPulse := false, lastBeat := now }

/-- `detectHeartBeat_Adaptive` (ino lines 397-473): the weak-signal
guard, the rising edge, the peak tracking, the falling edge, and the
`lastValue` bookkeeping. -/
def detectStep (s : SensorState) (now : ℕ) : SensorState :=
  if s.irAC < 30 then { s with stableReadings := 0 }
  else
    let threshold := adaptiveThreshold s.irBaseline s.irAC
    let s :=
      if ¬s.inPulse ∧ threshold < s.irValue ∧ s.lastValue ≤ threshold then
        { s with
          inPulse := true
          pulseStartTime := now
          peakValue := s.irValue
          stableReadings := s.stableReadings + 1 }
      else s
    let s :=
      if s.inPulse then
        let s := if s.peakValue < s.irValue then { s with peakValue := s.irValue } else s
        if s.irValue < threshold then fallingEdge s now else s
      else s
    { s with lastValue := s.irValue }

/-- The no-finger branch of `readHeartSensor_UltraSensitive`
(ino lines 348-357). -/
def noFingerReset (s : SensorState) : SensorState :=
  { s with
    beatsPerMinute := 0
    beatAvg := 0
    beatCount := 0
    irBaseline := 0
    stableReadings := 0
    irWindowFull := false
    irWindowIndex := 0 }

/-- Store the `calculateACDC` results in the globals (ino lines 369-371
and 376-394). -/
def acdcStep (s : SensorState) : SensorState :=
  let c := calculateACDC s.irWindow
  { s with irBaseline := c.1, irAmplitude := c.2.1, irAC := c.2.2 }

/-- `readHeartSensor_UltraSensitive` (ino lines 333-373) for one
acquisition tick with IR reading `irv` at time `now` (the sensor is
assumed initialised): finger detection, window push, and — once the
window is full — AC/DC analysis and adaptive beat detection. -/
def readHeartStep (s : SensorState) (irv now : ℕ) : SensorState :=
  let s := { s with irValue := irv, fingerDetected := 50000 < irv }
  if 50000 < irv then
    let s := { s with irWindow := s.irWindow.set s.irWindowIndex irv }
    let s :=
      if 30 ≤ s.irWindowIndex + 1 then { s with irWindowIndex := 0, irWindowFull := true }
      else { s with irWindowIndex := s.irWindowIndex + 1 }
    if s.irWindowFull then detectStep (acdcStep s) now else s
  else noFingerReset s

/-! ### Concrete fixtures used by witnesses and counterexamples -/

/-- A single cleaned row that classifies as FlowState
(quiet noise, optimal BPM). -/
def exFlowEntry : Entry :=
  { dayOfWeek := 1, hour := 5, noise := 50, bpm := 70, rrInterval := 0, state := FlowState }

/-- A cleaned row on Friday 05:00 that classifies as Distracted (loud
noise, elevated heart rate): filler data for a cell the 24-hour
forecast window never visits. -/
def exOtherEntry : Entry :=
  { dayOfWeek := 5, hour := 5, noise := 60, bpm := 100, rrInterval := 0, state := Distracted }

/-- 100 cleaned rows: 99 in the never-visited Friday cell and one
flow-state row in the Monday 05:00 cell, which the forecast window from
Monday 00:00 does visit.  The visited cell has probability 1 from a
single sample. -/
def exData : List Entry :=
  List.replicate 99 exOtherEntry ++ [exFlowEntry]

/-- A stored prediction state whose data-quality label is not
`insufficient` (as produced by a successful run on 150-300 samples). -/
def exStaleState : PredictionData :=
  { predictions := [], confidence := 52, dataQuality := "low" }

/-- The admission test of the candidate loop, specialised to `exData`
and a clock at Monday 00:00 (proof scaffolding for the concrete run). -/
def exCond : ℕ → Bool := fun j =>
  decide ((3 / 10 : ℚ) ≤ (analyzeCell exData (futureKey (1, 0) (j + 1))).probability)

/-- A full 30-sample optical window with mean 1000 and peak-to-peak 64
(so the half-amplitude AC estimate is 32). -/
def exWindow : List ℕ :=
  List.replicate 15 968 ++ List.replicate 15 1032

/-- A detector state in mid-pulse with a full window, used to exercise
the falling-edge and no-finger paths. -/
def exBeatState : SensorState :=
  { irValue := 59000
    fingerDetected := true
    beatsPerMinute := 0
    beatAvg := 0
    beatCount := 3
    rates := [0, 0, 0, 0]
    rateSpot := 0
    lastBeat := 100
    rrIntervals := List.replicate 15 0
    rrIndex := 0
    hrvSampleCount := 0
    irWindow := List.replicate 30 60000
    irWindowIndex := 7
    irWindowFull := true
    irBaseline := 60000
    irAmplitude := 100
    irAC := 50
    stableReadings := 4
    beatDetected := false
    lastValue := 60100
    inPulse := true
    pulseStartTime := 60
    peakValue := 60200 }

/-! ### Helper lemmas -/

theorem sum_sq_flowIndicator (ss : List StudyState) (p : ℚ) :
    ((ss.map fun st => (flowIndicator st - p) ^ 2).sum) =
      (ss.countP (fun st => decide (st = FlowState)) : ℚ) * (1 - 2 * p)
        + (ss.length : ℚ) * p ^ 2 := by
  induction ss with
  | nil => simp
  | cons st ss ih =>
    simp only [List.map_cons, List.sum_cons, List.countP_cons, List.length_cons, ih]
    by_cases h : st = FlowState
    · simp [flowIndicator, h]
      ring
    · simp [flowIndicator, h]
      ring

theorem analyzeCell_totalCount (data : List Entry) (k : ℕ × ℕ) :
    (analyzeCell data k).totalCount = (data.filter (entryMatches k)).length := rfl

theorem analyzeCell_probability (data : List Entry) (k : ℕ × ℕ)
    (h : 0 < (analyzeCell data k).totalCount) :
    (analyzeCell data k).probability =
      (((data.filter (entryMatches k)).filter
          (fun e => decide (e.state = FlowState))).length : ℚ)
        / ((data.filter (entryMatches k)).length : ℚ) := by
  have hn : 0 < (data.filter (entryMatches k)).length := h
  show (if 0 < (data.filter (entryMatches k)).length then _ else (0 : ℚ)) = _
  rw [if_pos hn]

theorem analyzeCell_probability_of_empty (data : List Entry) (k : ℕ × ℕ)
    (h : (data.filter (entryMatches k)).length = 0) :
    (analyzeCell data k).probability = 0 := by
  show (if 0 < (data.filter (entryMatches k)).length
      then (((data.filter (entryMatches k)).filter
          (fun e => decide (e.state = FlowState))).length : ℚ)
        / ((data.filter (entryMatches k)).length : ℚ)
      else 0) = 0
  rw [if_neg (by omega)]

theorem probThreshold_false (data : List Entry) (k : ℕ × ℕ)
    (h : (data.filter (entryMatches k)).length = 0) :
    decide ((3 / 10 : ℚ) ≤ (analyzeCell data k).probability) = false := by
  apply decide_eq_false
  rw [analyzeCell_probability_of_empty data k h]
  norm_num

theorem probThreshold_true (data : List Entry) (k : ℕ × ℕ)
    (hn : (data.filter (entryMatches k)).length = 1)
    (hf : ((data.filter (entryMatches k)).filter
      (fun e => decide (e.state = FlowState))).length = 1) :
    decide ((3 / 10 : ℚ) ≤ (analyzeCell data k).probability) = true := by
  apply decide_eq_true
  have h0 : 0 < (analyzeCell data k).totalCount := by
    show 0 < (data.filter (entryMatches k)).length
    omega
  rw [analyzeCell_probability data k h0, hn, hf]
  norm_num

theorem filter_replicate_of_false {α : Type} (p : α → Bool) (a : α) (h : p a = false)
    (n : ℕ) : (List.replicate n a).filter p = [] := by
  induction n with
  | zero => rfl
  | succ n ih => simp [List.replicate_succ, List.filter_cons, h, ih]

theorem exData_filter_eq (k : ℕ × ℕ) (h1 : entryMatches k exOtherEntry = false) :
    exData.filter (entryMatches k) =
      if entryMatches k exFlowEntry then [exFlowEntry] else [] := by
  rw [exData, List.filter_append, filter_replicate_of_false _ _ h1]
  simp only [List.filter_cons, List.filter_nil, List.nil_append]

theorem exData_cond_false (k : ℕ × ℕ) (h1 : entryMatches k exOtherEntry = false)
    (h2 : entryMatches k exFlowEntry = false) :
    decide ((3 / 10 : ℚ) ≤ (analyzeCell exData k).probability) = false := by
  apply probThreshold_false
  rw [exData_filter_eq k h1, if_neg (by simp [h2])]
  rfl

theorem exData_cond_true (k : ℕ × ℕ) (h1 : entryMatches k exOtherEntry = false)
    (h2 : entryMatches k exFlowEntry = true) :
    decide ((3 / 10 : ℚ) ≤ (analyzeCell exData k).probability) = true := by
  apply probThreshold_true <;>
    rw [exData_filter_eq k h1, if_pos (by simp [h2])] <;> rfl

theorem filter_cons_of_false {α : Type} (p : α → Bool) (a : α) (l : List α)
    (h : p a = false) : (a :: l).filter p = l.filter p := by
  simp [List.filter_cons, h]

theorem filter_cons_of_true {α : Type} (p : α → Bool) (a : α) (l : List α)
    (h : p a = true) : (a :: l).filter p = a :: l.filter p := by
  simp [List.filter_cons, h]

theorem exData_hit_length :
    (exData.filter (entryMatches (futureKey (1, 0) 5))).length = 1 := by
  rw [exData_filter_eq _ (by decide), if_pos (by decide)]
  rfl

theorem analyzeCell_variance (data : List Entry) (k : ℕ × ℕ)
    (h : 0 < (analyzeCell data k).totalCount) :
    cellVariance (analyzeCell data k) =
      (analyzeCell data k).probability * (1 - (analyzeCell data k).probability) := by
  have hn : 0 < (data.filter (entryMatches k)).length := h
  have hne : ((data.filter (entryMatches k)).length : ℚ) ≠ 0 :=
    Nat.cast_ne_zero.mpr (by omega)
  have hcount :
      ((data.filter (entryMatches k)).map (fun e => e.state)).countP
          (fun st => decide (st = FlowState)) =
        ((data.filter (entryMatches k)).filter
          (fun e => decide (e.state = FlowState))).length := by
    rw [List.countP_map, List.countP_eq_length_filter]
    rfl
  have hvar : cellVariance (analyzeCell data k) =
      (((data.filter (entryMatches k)).map (fun e => e.state)).map
          (fun st => (flowIndicator st - (analyzeCell data k).probability) ^ 2)).sum
        / ((data.filter (entryMatches k)).length : ℚ) := rfl
  rw [hvar, sum_sq_flowIndicator, hcount, List.length_map,
    analyzeCell_probability data k h]
  field_simp
  ring

theorem classify_eq_specClassify (noise : ℚ) (bpm : ℤ) (rr : ℚ) :
    classifyStateForPrediction noise bpm rr = specClassify noise bpm rr := by
  unfold classifyStateForPrediction specClassify quadrantClassify
  by_cases h1 : bpm < 40 ∨ bpm > 200
  · simp [h1]
  · by_cases hq : noise < 55 <;>
      by_cases hg : rr > 700 ∨ (60 ≤ bpm ∧ bpm ≤ 80) <;>
        simp [h1, hq, hg]

theorem classify_of_in_range (noise : ℚ) (bpm : ℤ) (rr : ℚ) (h : 40 ≤ bpm) (h' : bpm ≤ 200) :
    classifyStateForPrediction noise bpm rr = quadrantClassify noise bpm rr := by
  rw [classify_eq_specClassify, specClassify, if_neg]
  push_neg
  exact ⟨by omega, by omega⟩

/-! ### Claim theorems -/

/-- Claim C2: the state classifier returns Standby for every heart rate
outside [40, 200] regardless of the other inputs, and otherwise follows
the four-quadrant rule with isQuiet = noiseDb < 55 and isGoodPhysio =
(rrIntervalMs > 700) or (60 ≤ bpm ≤ 80): this is exactly the
specification classifier `specClassify`. -/
theorem C2_classifier : ∀ (noise : ℚ) (bpm : ℤ) (rr : ℚ),
    classifyStateForPrediction noise bpm rr = specClassify noise bpm rr :=
  classify_eq_specClassify

/-- Claim C10: every materialized historical row uses the averaged BPM
(field 5) when positive, else the instantaneous BPM (field 6), both for
its stored `bpm` and inside its classified state; the filtered rows all
carry a BPM in [40, 200]; and on every surviving row the classifier's
out-of-range Standby branch is not taken: the state equals the pure
four-quadrant result. -/
theorem C10_fetch : ∀ feeds : List Feed,
    (∀ f : Feed,
      (cleanRow f).bpm = (if f.bpmAvg > 0 then f.bpmAvg else f.bpmRealtime) ∧
      (cleanRow f).state =
        classifyStateForPrediction f.noise (cleanRow f).bpm f.rrInterval) ∧
    (∀ e ∈ fetchClean feeds,
      (40 ≤ e.bpm ∧ e.bpm ≤ 200) ∧
      e.state = quadrantClassify e.noise e.bpm e.rrInterval) := by
  intro feeds
  constructor
  · intro f
    exact ⟨rfl, rfl⟩
  · intro e he
    have hmem := List.mem_filter.mp he
    have hrange : 40 ≤ e.bpm ∧ e.bpm ≤ 200 := by
      have := hmem.2
      simpa using this
    refine ⟨hrange, ?_⟩
    obtain ⟨f, _, hf⟩ := List.mem_map.mp hmem.1
    have hstate : e.state = classifyStateForPrediction e.noise e.bpm e.rrInterval := by
      subst hf
      rfl
    rw [hstate, classify_of_in_range _ _ _ hrange.1 hrange.2]

/-- Claim C9: for every non-empty PatternCell the variance underlying
`consistency` is the Bernoulli variance p(1-p) of the flow indicator
around the cell's own probability, it is bounded by 1/4, consistency is
literally 1 - sqrt(variance), and therefore — with no explicit clamping
anywhere — consistency always lies in [0.5, 1]. -/
theorem C9_consistency : ∀ (data : List Entry) (k : ℕ × ℕ),
    0 < (analyzeCell data k).totalCount →
    cellVariance (analyzeCell data k) =
      (analyzeCell data k).probability * (1 - (analyzeCell data k).probability) ∧
    cellVariance (analyzeCell data k) ≤ 1 / 4 ∧
    consistency (analyzeCell data k) =
      1 - Real.sqrt (cellVariance (analyzeCell data k)) ∧
    1 / 2 ≤ consistency (analyzeCell data k) ∧
    consistency (analyzeCell data k) ≤ 1 := by
  intro data k h
  have hvar := analyzeCell_variance data k h
  have hp0 : 0 ≤ (analyzeCell data k).probability := by
    rw [analyzeCell_probability data k h]
    positivity
  have hp1 : (analyzeCell data k).probability ≤ 1 := by
    rw [analyzeCell_probability data k h]
    rw [div_le_one (by exact_mod_cast h)]
    exact_mod_cast List.length_filter_le _ _
  have hbound : cellVariance (analyzeCell data k) ≤ 1 / 4 := by
    rw [hvar]
    nlinarith [sq_nonneg ((analyzeCell data k).probability - 1 / 2)]
  have hcons : consistency (analyzeCell data k) =
      1 - Real.sqrt (cellVariance (analyzeCell data k)) := by
    rw [consistency, if_pos h]
  have hsqrt : Real.sqrt (cellVariance (analyzeCell data k)) ≤ 1 / 2 := by
    rw [Real.sqrt_le_left (by norm_num)]
    have h2 : ((cellVariance (analyzeCell data k) : ℝ)) ≤ ((1 / 4 : ℚ) : ℝ) := by
      exact_mod_cast hbound
    refine h2.trans ?_
    norm_num
  refine ⟨hvar, hbound, hcons, ?_, ?_⟩
  · rw [hcons]
    linarith
  · rw [hcons]
    have := Real.sqrt_nonneg ((cellVariance (analyzeCell data k) : ℝ))
    linarith

/-- Claim C9 witness: a concrete one-sample cell satisfies the
hypothesis and the bounds. -/
theorem C9_consistency_witness :
    0 < (analyzeCell [exFlowEntry] (1, 5)).totalCount ∧
    (1 / 2 ≤ consistency (analyzeCell [exFlowEntry] (1, 5)) ∧
      consistency (analyzeCell [exFlowEntry] (1, 5)) ≤ 1) :=
  ⟨by decide, ((C9_consistency [exFlowEntry] (1, 5) (by decide)).2.2.2.1),
    ((C9_consistency [exFlowEntry] (1, 5) (by decide)).2.2.2.2)⟩

/-- Claim C5: with fewer than 5 accepted inter-beat intervals both HRV
statistics are zero; with at least 5 they are the population standard
deviation (dividing by N) and the root mean square of the N-1 successive
differences; and any constant interval train of 1000 ms with N ≥ 5
yields SDNN = 0 and RMSSD = 0. -/
theorem C5_hrv :
    (∀ l : List ℕ, l.length < 5 → calculateHRV l = (0, 0)) ∧
    (∀ l : List ℕ, 5 ≤ l.length →
      calculateHRV l = (Real.sqrt (hrvVariance l), Real.sqrt (hrvMeanSqDiff l))) ∧
    (∀ n : ℕ, 5 ≤ n → calculateHRV (List.replicate n 1000) = (0, 0)) := by
  have hgen : ∀ l : List ℕ, 5 ≤ l.length →
      calculateHRV l = (Real.sqrt (hrvVariance l), Real.sqrt (hrvMeanSqDiff l)) := by
    intro l h
    rw [calculateHRV, if_neg (by omega), if_pos (by omega)]
  refine ⟨?_, hgen, ?_⟩
  · intro l h
    rw [calculateHRV, if_pos h]
  · intro n hn
    have hlen : (List.replicate n 1000).length = n := List.length_replicate ..
    have hmean : hrvMean (List.replicate n 1000) = 1000 := by
      rw [hrvMean, List.map_replicate, List.sum_replicate, hlen, nsmul_eq_mul]
      rw [mul_comm, mul_div_assoc, div_self (Nat.cast_ne_zero.mpr (by omega)), mul_one]
      norm_num
    have hvar : hrvVariance (List.replicate n 1000) = 0 := by
      rw [hrvVariance]
      rw [List.sum_eq_zero, zero_div]
      intro x hx
      obtain ⟨r, hr, hfx⟩ := List.mem_map.mp hx
      have hr1000 := List.eq_of_mem_replicate hr
      rw [← hfx, hr1000, hmean]
      ring
    have hdiff : hrvMeanSqDiff (List.replicate n 1000) = 0 := by
      rw [hrvMeanSqDiff]
      rw [List.sum_eq_zero, zero_div]
      intro x hx
      obtain ⟨ab, hab, hfx⟩ := List.mem_map.mp hx
      obtain ⟨a, b⟩ := ab
      have h1 := List.eq_of_mem_replicate (List.of_mem_zip hab).1
      have h2 := List.eq_of_mem_replicate (List.mem_of_mem_tail (List.of_mem_zip hab).2)
      rw [← hfx, h1, h2]
      ring
    rw [hgen _ (by omega), hvar, hdiff]
    simp [Real.sqrt_zero]

theorem fallingEdge_spec (s : SensorState) (now : ℕ) :
    (fallingEdge s now).lastBeat = now ∧
    (fallingEdge s now).inPulse = false ∧
    (¬(0 < s.lastBeat ∧ 400 < now - s.lastBeat ∧ now - s.lastBeat < 3000) →
      (fallingEdge s now).beatsPerMinute = s.beatsPerMinute ∧
      (fallingEdge s now).rates = s.rates ∧
      (fallingEdge s now).rrIntervals = s.rrIntervals ∧
      (fallingEdge s now).hrvSampleCount = s.hrvSampleCount ∧
      (fallingEdge s now).beatAvg = s.beatAvg) ∧
    ((0 < s.lastBeat ∧ 400 < now - s.lastBeat ∧ now - s.lastBeat < 3000) →
      (fallingEdge s now).beatsPerMinute = 60000 / (now - s.lastBeat) ∧
      ((45 ≤ 60000 / (now - s.lastBeat) ∧ 60000 / (now - s.lastBeat) ≤ 150) →
        (fallingEdge s now).rates =
          s.rates.set s.rateSpot (60000 / (now - s.lastBeat) % 256) ∧
        (fallingEdge s now).rrIntervals =
          s.rrIntervals.set s.rrIndex (now - s.lastBeat)) ∧
      (¬(45 ≤ 60000 / (now - s.lastBeat) ∧ 60000 / (now - s.lastBeat) ≤ 150) →
        (fallingEdge s now).rates = s.rates ∧
        (fallingEdge s now).rrIntervals = s.rrIntervals)) := by
  refine ⟨rfl, rfl, ?_, ?_⟩
  · intro hc
    have he : fallingEdge s now = { s with inPulse := false, lastBeat := now } := by
      simp only [fallingEdge]
      rw [if_neg hc]
    rw [he]
    exact ⟨rfl, rfl, rfl, rfl, rfl⟩
  · intro hc
    by_cases h2 : 45 ≤ 60000 / (now - s.lastBeat) ∧ 60000 / (now - s.lastBeat) ≤ 150
    · have he : fallingEdge s now =
          { beatAdmit
              { s with
                beatsPerMinute := 60000 / (now - s.lastBeat)
                beatCount := s.beatCount + 1 }
              (60000 / (now - s.lastBeat)) (now - s.lastBeat) with
            inPulse := false, lastBeat := now } := by
        simp only [fallingEdge]
        rw [if_pos hc, if_pos h2]
      rw [he]
      exact ⟨rfl, fun _ => ⟨rfl, rfl⟩, fun hc2 => absurd h2 hc2⟩
    · have he : fallingEdge s now =
          { s with
            beatsPerMinute := 60000 / (now - s.lastBeat)
            beatCount := s.beatCount + 1
            inPulse := false
            lastBeat := now } := by
        simp only [fallingEdge]
        rw [if_pos hc, if_neg h2]
      rw [he]
      exact ⟨rfl, fun hc2 => absurd hc2 h2, fun _ => ⟨rfl, rfl⟩⟩

theorem detectStep_falling (s : SensorState) (now : ℕ)
    (hAC : 30 ≤ s.irAC) (hPulse : s.inPulse = true)
    (hFall : s.irValue < adaptiveThreshold s.irBaseline s.irAC) :
    detectStep s now =
      { fallingEdge { s with peakValue := max s.peakValue s.irValue } now with
          lastValue :=
            (fallingEdge { s with peakValue := max s.peakValue s.irValue } now).irValue } := by
  have h30 : ¬(s.irAC < 30) := by omega
  have hrise : ¬(¬s.inPulse = true ∧
      adaptiveThreshold s.irBaseline s.irAC < s.irValue ∧
      s.lastValue ≤ adaptiveThreshold s.irBaseline s.irAC) := by
    simp [hPulse]
  simp only [detectStep]
  rw [if_neg h30, if_neg hrise, if_pos hPulse]
  by_cases hpk : s.peakValue < s.irValue
  · rw [if_pos hpk, max_eq_right hpk.le]
    dsimp only
    rw [if_pos hFall]
  · rw [if_neg hpk, max_eq_left (by omega)]
    rw [if_pos hFall]

/-- Claim C3 counterexample: at delta = exactly 400 ms the claim's
inclusive bound says an instantaneous BPM of 60000/400 = 150 is computed
and admitted, but the code's strict `delta > 400` comparison computes
nothing: the BPM stays 0 and neither ring buffer changes. -/
theorem C3_counterexample :
    exBeatState.inPulse = true ∧
    30 ≤ exBeatState.irAC ∧
    exBeatState.irValue < adaptiveThreshold exBeatState.irBaseline exBeatState.irAC ∧
    0 < exBeatState.lastBeat ∧
    400 ≤ 500 - exBeatState.lastBeat ∧
    500 - exBeatState.lastBeat ≤ 3000 ∧
    45 ≤ 60000 / (500 - exBeatState.lastBeat) ∧
    60000 / (500 - exBeatState.lastBeat) ≤ 150 ∧
    (detectStep exBeatState 500).beatsPerMinute ≠ 60000 / (500 - exBeatState.lastBeat) ∧
    (detectStep exBeatState 500).rrIntervals = exBeatState.rrIntervals ∧
    (detectStep exBeatState 500).rates = exBeatState.rates ∧
    (detectStep exBeatState 500).lastBeat = 500 := by decide

/-- Claim C3 (amended): on a falling edge the instantaneous BPM
60000/delta is computed exactly when `lastBeatTime` is nonzero and
delta is STRICTLY between 400 and 3000 ms (the claim's inclusive
bounds are wrong at the endpoints); the beat enters the rate ring and
the inter-beat-interval ring only when 45 ≤ BPM ≤ 150; and
`lastBeatTime` is always set to `now`. -/
theorem C3_amended : ∀ (s : SensorState) (now : ℕ),
    30 ≤ s.irAC → s.inPulse = true →
    s.irValue < adaptiveThreshold s.irBaseline s.irAC →
    (detectStep s now).lastBeat = now ∧
    (detectStep s now).inPulse = false ∧
    (¬(0 < s.lastBeat ∧ 400 < now - s.lastBeat ∧ now - s.lastBeat < 3000) →
      (detectStep s now).beatsPerMinute = s.beatsPerMinute ∧
      (detectStep s now).rates = s.rates ∧
      (detectStep s now).rrIntervals = s.rrIntervals ∧
      (detectStep s now).hrvSampleCount = s.hrvSampleCount ∧
      (detectStep s now).beatAvg = s.beatAvg) ∧
    ((0 < s.lastBeat ∧ 400 < now - s.lastBeat ∧ now - s.lastBeat < 3000) →
      (detectStep s now).beatsPerMinute = 60000 / (now - s.lastBeat) ∧
      ((45 ≤ 60000 / (now - s.lastBeat) ∧ 60000 / (now - s.lastBeat) ≤ 150) →
        (detectStep s now).rates =
          s.rates.set s.rateSpot (60000 / (now - s.lastBeat) % 256) ∧
        (detectStep s now).rrIntervals =
          s.rrIntervals.set s.rrIndex (now - s.lastBeat)) ∧
      (¬(45 ≤ 60000 / (now - s.lastBeat) ∧ 60000 / (now - s.lastBeat) ≤ 150) →
        (detectStep s now).rates = s.rates ∧
        (detectStep s now).rrIntervals = s.rrIntervals)) := by
  intro s now hAC hPulse hFall
  rw [detectStep_falling s now hAC hPulse hFall]
  exact fallingEdge_spec { s with peakValue := max s.peakValue s.irValue } now

/-- Claim C3 witness: an admitted falling-edge beat 1000 ms after the
previous one yields 60 BPM. -/
theorem C3_amended_witness :
    (detectStep exBeatState 1100).beatsPerMinute =
      60000 / (1100 - exBeatState.lastBeat) :=
  ((C3_amended exBeatState 1100 (by decide) (by decide) (by decide)).2.2.2
    (by decide)).1

/-- Claim C4 counterexample: on a 30-sample window with exact mean 1000
and peak-to-peak 64 (half-amplitude AC = 32), the code's truncating
threshold is 1000 + (32*3)/10 = 1009, while the claim's
baseline + round(amplitude x 0.3) = 1000 + round(9.6) = 1010. -/
theorem C4_counterexample :
    (calculateACDC exWindow).1 = 1000 ∧
    (calculateACDC exWindow).2.1 = 64 ∧
    (calculateACDC exWindow).2.2 = 32 ∧
    (exWindow.sum : ℚ) / 30 = 1000 ∧
    adaptiveThreshold (calculateACDC exWindow).1 (calculateACDC exWindow).2.2 = 1009 ∧
    ((calculateACDC exWindow).1 : ℤ)
        + round (((calculateACDC exWindow).2.2 : ℚ) * (3 / 10)) = 1010 ∧
    ((adaptiveThreshold (calculateACDC exWindow).1 (calculateACDC exWindow).2.2 : ℤ) ≠
      ((calculateACDC exWindow).1 : ℤ)
        + round (((calculateACDC exWindow).2.2 : ℚ) * (3 / 10))) := by
  have h1 : (calculateACDC exWindow).1 = 1000 := by decide
  have h2 : (calculateACDC exWindow).2.1 = 64 := by decide
  have h3 : (calculateACDC exWindow).2.2 = 32 := by decide
  have h4 : (exWindow.sum : ℚ) / 30 = 1000 := by
    norm_num [show exWindow.sum = 30000 from by decide]
  have h5 : adaptiveThreshold (calculateACDC exWindow).1 (calculateACDC exWindow).2.2
      = 1009 := by decide
  have h6 : ((calculateACDC exWindow).1 : ℤ)
      + round (((calculateACDC exWindow).2.2 : ℚ) * (3 / 10)) = 1010 := by
    rw [h1, h3]
    norm_num [round_eq]
  refine ⟨h1, h2, h3, h4, h5, h6, ?_⟩
  rw [h5, h6]
  decide

/-- Claim C4 (amended): the rising-edge threshold is
baseline + floor(amplitude x 0.3) — C integer truncation, not rounding —
where baseline is the floor of the window mean and the AC amplitude is
the floor of half the peak-to-peak; and whenever the AC amplitude is
below 30 the detector resets the stable-readings counter to zero and
does nothing else (in particular no rising edge is detected). -/
theorem C4_amended :
    (∀ w : List ℕ, w.length = 30 →
      (calculateACDC w).1 = ⌊(w.sum : ℚ) / 30⌋₊ ∧
      (calculateACDC w).2.2 = ⌊((calculateACDC w).2.1 : ℚ) / 2⌋₊) ∧
    (∀ b a : ℕ, adaptiveThreshold b a = b + ⌊(a : ℚ) * (3 / 10)⌋₊) ∧
    (∀ (s : SensorState) (now : ℕ), s.irAC < 30 →
      detectStep s now = { s with stableReadings := 0 }) := by
  refine ⟨?_, ?_, ?_⟩
  · intro w _
    constructor
    · rw [show (30 : ℚ) = ((30 : ℕ) : ℚ) by norm_num, Nat.floor_div_nat,
        Nat.floor_natCast]
      rfl
    · rw [show (2 : ℚ) = ((2 : ℕ) : ℚ) by norm_num, Nat.floor_div_nat,
        Nat.floor_natCast]
      rfl
  · intro b a
    rw [show ((a : ℚ) * (3 / 10)) = ((a * 3 : ℕ) : ℚ) / ((10 : ℕ) : ℚ) by
      push_cast; ring]
    rw [Nat.floor_div_nat, Nat.floor_natCast]
    rfl
  · intro s now h
    rw [detectStep, if_pos h]

/-- Claim C4 witness: the amended threshold formula and weak-signal
guard evaluated at the concrete window and a weak-signal state. -/
theorem C4_amended_witness :
    (calculateACDC exWindow).1 = ⌊(exWindow.sum : ℚ) / 30⌋₊ ∧
    adaptiveThreshold 1000 32 = 1000 + ⌊(32 : ℚ) * (3 / 10)⌋₊ ∧
    detectStep { exBeatState with irAC := 7 } 900 =
      { exBeatState with irAC := 7, stableReadings := 0 } := by
  refine ⟨(C4_amended.1 exWindow (by decide)).1, C4_amended.2.1 1000 32, ?_⟩
  exact C4_amended.2.2 { exBeatState with irAC := 7 } 900 (by decide)

/-- Claim C8 counterexample: the in-pulse flag is a function-static of
`detectHeartBeat_Adaptive` and is NOT reset when the finger is removed;
a no-finger tick on a mid-pulse state leaves it set, contradicting the
claim's reset list. -/
theorem C8_counterexample :
    exBeatState.inPulse = true ∧
    (40000 : ℕ) ≤ 50000 ∧
    (readHeartStep exBeatState 40000 9000).inPulse = true ∧
    (readHeartStep exBeatState 9000 9000).inPulse = true := by decide

/-- Claim C8 (amended): on every no-finger tick (optical intensity at or
below the 50000 detection threshold) the instantaneous and averaged
heart rate, beat count, baseline, stable-readings counter, window-full
flag and window index are reset to zero, while the inter-beat-interval
ring buffer, its index and its sample count — and also the in-pulse
flag, which the claim wrongly lists among the resets — are left
unchanged. -/
theorem C8_amended : ∀ (s : SensorState) (irv now : ℕ),
    irv ≤ 50000 →
    (readHeartStep s irv now).beatsPerMinute = 0 ∧
    (readHeartStep s irv now).beatAvg = 0 ∧
    (readHeartStep s irv now).beatCount = 0 ∧
    (readHeartStep s irv now).irBaseline = 0 ∧
    (readHeartStep s irv now).stableReadings = 0 ∧
    (readHeartStep s irv now).irWindowFull = false ∧
    (readHeartStep s irv now).irWindowIndex = 0 ∧
    (readHeartStep s irv now).fingerDetected = false ∧
    (readHeartStep s irv now).rrIntervals = s.rrIntervals ∧
    (readHeartStep s irv now).rrIndex = s.rrIndex ∧
    (readHeartStep s irv now).hrvSampleCount = s.hrvSampleCount ∧
    (readHeartStep s irv now).inPulse = s.inPulse := by
  intro s irv now h
  have hn : ¬(50000 < irv) := by omega
  have he : readHeartStep s irv now =
      noFingerReset { s with irValue := irv, fingerDetected := false } := by
    simp only [readHeartStep]
    rw [if_neg hn]
    rw [show decide (50000 < irv) = false from by simp [hn]]
  rw [he]
  exact ⟨rfl, rfl, rfl, rfl, rfl, rfl, rfl, rfl, rfl, rfl, rfl, rfl⟩

/-- Claim C8 witness: the amended reset behaviour at a concrete
mid-pulse state and a below-threshold optical reading. -/
theorem C8_amended_witness :
    (readHeartStep exBeatState 40000 9000).beatAvg = 0 ∧
    (readHeartStep exBeatState 40000 9000).rrIntervals = exBeatState.rrIntervals :=
  ⟨(C8_amended exBeatState 40000 9000 (by decide)).2.1,
    (C8_amended exBeatState 40000 9000 (by decide)).2.2.2.2.2.2.2.2.1⟩

theorem filter_orderedInsert_score (a : Prediction) (l : List Prediction) (s : ℚ) :
    (List.orderedInsert predGE a l).filter (fun p => decide (predScore p = s)) =
      if predScore a = s then
        a :: l.filter (fun p => decide (predScore p = s))
      else l.filter (fun p => decide (predScore p = s)) := by
  induction l with
  | nil =>
    by_cases h : predScore a = s <;> simp [List.orderedInsert, h]
  | cons b l ih =>
    by_cases hab : predGE a b
    · rw [List.orderedInsert, if_pos hab]
      by_cases h : predScore a = s <;> simp [List.filter_cons, h]
    · rw [List.orderedInsert, if_neg hab]
      have hlt : predScore a < predScore b := lt_of_not_le hab
      by_cases h : predScore a = s
      · have hbs : ¬(predScore b = s) := by
          rw [← h]
          exact (ne_of_gt hlt)
        simp [List.filter_cons, h, hbs, ih]
      · simp [List.filter_cons, h, ih]

theorem filter_insertionSort_score (l : List Prediction) (s : ℚ) :
    (List.insertionSort predGE l).filter (fun p => decide (predScore p = s)) =
      l.filter (fun p => decide (predScore p = s)) := by
  induction l with
  | nil => rfl
  | cons a l ih =>
    rw [List.insertionSort, filter_orderedInsert_score]
    by_cases h : predScore a = s <;> simp [List.filter_cons, h, ih]

theorem candidates_eq_filter (pats : ℕ × ℕ → Cell) (now : ℕ × ℕ) :
    candidates pats now =
      ((List.range 24).filter
          (fun j => decide ((3 / 10 : ℚ) ≤ (pats (futureKey now (j + 1))).probability))).map
        (fun j => mkPrediction pats now (j + 1)) := by
  rw [candidates]
  generalize List.range 24 = l
  induction l with
  | nil => rfl
  | cons a l ih =>
    by_cases h : (3 / 10 : ℚ) ≤ (pats (futureKey now (a + 1))).probability <;>
      simp [List.filterMap_cons, List.filter_cons, h, ih]

/-- Claim C6: the sorted list the engine truncates is a permutation of
the candidate list, descending in the combined score
probability x (confidence/100); candidates of equal score keep their
encounter order (for every score value, filtering the sorted list gives
exactly the candidate sublist of that score, in order); and the engine
returns the first 5 of it.  ES2019 `Array.prototype.sort` is stable, so
these properties determine the source's sort result uniquely. -/
theorem C6_sort : ∀ (pats : ℕ × ℕ → Cell) (now : ℕ × ℕ),
    ∃ L : List Prediction,
      List.Perm (candidates pats now) L ∧
      L.Sorted predGE ∧
      (∀ s : ℚ, L.filter (fun p => decide (predScore p = s)) =
        (candidates pats now).filter (fun p => decide (predScore p = s))) ∧
      generateFlowStatePredictions pats now = L.take 5 := by
  intro pats now
  exact ⟨List.insertionSort predGE (candidates pats now),
    (List.perm_insertionSort predGE _).symm,
    List.sorted_insertionSort predGE _,
    fun s => filter_insertionSort_score _ s, rfl⟩

/-- Claim C1 (amended): every forecast run returns at most 5
predictions, each with probability at least 0.30; but `sampleCount ≥ 10`
is NOT guaranteed — a cell with fewer than 10 samples can be returned,
carrying confidence 0 instead of being dropped. -/
theorem C1_amended : ∀ (pats : ℕ × ℕ → Cell) (now : ℕ × ℕ),
    (generateFlowStatePredictions pats now).length ≤ 5 ∧
    ∀ p ∈ generateFlowStatePredictions pats now,
      (3 / 10 : ℚ) ≤ p.probability ∧ (p.sampleSize < 10 → p.confidence = 0) := by
  intro pats now
  constructor
  · rw [generateFlowStatePredictions, List.length_take]
    exact min_le_left 5 _
  · intro p hp
    have hp1 : p ∈ List.insertionSort predGE (candidates pats now) :=
      List.mem_of_mem_take hp
    have hp2 : p ∈ candidates pats now := (List.mem_insertionSort predGE).mp hp1
    rw [candidates_eq_filter] at hp2
    obtain ⟨j, hj, hjp⟩ := List.mem_map.mp hp2
    have hcond := List.of_mem_filter hj
    rw [← hjp]
    refine ⟨of_decide_eq_true hcond, ?_⟩
    intro hlt
    have hlt2 : (pats (futureKey now (j + 1))).totalCount < 10 := hlt
    show calculatePredictionConfidence (pats (futureKey now (j + 1))) = 0
    rw [calculatePredictionConfidence, if_pos hlt2]

/-- Claim C1 counterexample: a 100-row history whose only visited
candidate cell holds a single flow-state sample.  The run returns one
prediction with sampleCount 1 (< 10) and confidence 0, refuting the
claimed `sampleCount ≥ 10` guarantee for returned predictions. -/
theorem C1_counterexample :
    exData.length = 100 ∧
    ((runPredictionAnalysis (some exData) (1, 0) initialPredictionData).1.map
      (fun l => l.map (fun p => p.sampleSize))) = some [1] ∧
    ((runPredictionAnalysis (some exData) (1, 0) initialPredictionData).1.map
      (fun l => l.map (fun p => p.confidence))) = some [0] ∧
    ((runPredictionAnalysis (some exData) (1, 0) initialPredictionData).1.map
      (fun l => l.map (fun p => p.probability))) = some [1] ∧
    ¬(10 ≤ (1 : ℕ)) := by
  have hlen : exData.length = 100 := by
    simp [exData]
  have hne : ¬(exData.length < 100) := by omega
  have hfilter : (List.range 24).filter
      (fun j => decide ((3 / 10 : ℚ) ≤
        (analyzeCell exData (futureKey (1, 0) (j + 1))).probability)) = [4] := by
    rw [show List.range 24 =
      [0, 1, 2, 3, 4, 5, 6, 7, 8, 9, 10, 11, 12, 13, 14, 15, 16, 17, 18, 19, 20,
        21, 22, 23] from by decide]
    show List.filter exCond
      [0, 1, 2, 3, 4, 5, 6, 7, 8, 9, 10, 11, 12, 13, 14, 15, 16, 17, 18, 19, 20,
        21, 22, 23] = [4]
    rw [
      filter_cons_of_false exCond 0 _
        (exData_cond_false (futureKey (1, 0) (0 + 1)) (by decide) (by decide)),
      filter_cons_of_false exCond 1 _
        (exData_cond_false (futureKey (1, 0) (1 + 1)) (by decide) (by decide)),
      filter_cons_of_false exCond 2 _
        (exData_cond_false (futureKey (1, 0) (2 + 1)) (by decide) (by decide)),
      filter_cons_of_false exCond 3 _
        (exData_cond_false (futureKey (1, 0) (3 + 1)) (by decide) (by decide)),
      filter_cons_of_true exCond 4 _
        (exData_cond_true (futureKey (1, 0) (4 + 1)) (by decide) (by decide)),
      filter_cons_of_false exCond 5 _
        (exData_cond_false (futureKey (1, 0) (5 + 1)) (by decide) (by decide)),
      filter_cons_of_false exCond 6 _
        (exData_cond_false (futureKey (1, 0) (6 + 1)) (by decide) (by decide)),
      filter_cons_of_false exCond 7 _
        (exData_cond_false (futureKey (1, 0) (7 + 1)) (by decide) (by decide)),
      filter_cons_of_false exCond 8 _
        (exData_cond_false (futureKey (1, 0) (8 + 1)) (by decide) (by decide)),
      filter_cons_of_false exCond 9 _
        (exData_cond_false (futureKey (1, 0) (9 + 1)) (by decide) (by decide)),
      filter_cons_of_false exCond 10 _
        (exData_cond_false (futureKey (1, 0) (10 + 1)) (by decide) (by decide)),
      filter_cons_of_false exCond 11 _
        (exData_cond_false (futureKey (1, 0) (11 + 1)) (by decide) (by decide)),
      filter_cons_of_false exCond 12 _
        (exData_cond_false (futureKey (1, 0) (12 + 1)) (by decide) (by decide)),
      filter_cons_of_false exCond 13 _
        (exData_cond_false (futureKey (1, 0) (13 + 1)) (by decide) (by decide)),
      filter_cons_of_false exCond 14 _
        (exData_cond_false (futureKey (1, 0) (14 + 1)) (by decide) (by decide)),
      filter_cons_of_false exCond 15 _
        (exData_cond_false (futureKey (1, 0) (15 + 1)) (by decide) (by decide)),
      filter_cons_of_false exCond 16 _
        (exData_cond_false (futureKey (1, 0) (16 + 1)) (by decide) (by decide)),
      filter_cons_of_false exCond 17 _
        (exData_cond_false (futureKey (1, 0) (17 + 1)) (by decide) (by decide)),
      filter_cons_of_false exCond 18 _
        (exData_cond_false (futureKey (1, 0) (18 + 1)) (by decide) (by decide)),
      filter_cons_of_false exCond 19 _
        (exData_cond_false (futureKey (1, 0) (19 + 1)) (by decide) (by decide)),
      filter_cons_of_false exCond 20 _
        (exData_cond_false (futureKey (1, 0) (20 + 1)) (by decide) (by decide)),
      filter_cons_of_false exCond 21 _
        (exData_cond_false (futureKey (1, 0) (21 + 1)) (by decide) (by decide)),
      filter_cons_of_false exCond 22 _
        (exData_cond_false (futureKey (1, 0) (22 + 1)) (by decide) (by decide)),
      filter_cons_of_false exCond 23 _
        (exData_cond_false (futureKey (1, 0) (23 + 1)) (by decide) (by decide)),
      List.filter_nil]
  have hcand : candidates (analyzeCell exData) (1, 0) =
      [mkPrediction (analyzeCell exData) (1, 0) 5] := by
    rw [candidates_eq_filter, hfilter]
    rfl
  have hgen : generateFlowStatePredictions (analyzeCell exData) (1, 0) =
      [mkPrediction (analyzeCell exData) (1, 0) 5] := by
    rw [generateFlowStatePredictions, hcand]
    rfl
  have hrun : (runPredictionAnalysis (some exData) (1, 0) initialPredictionData).1 =
      some [mkPrediction (analyzeCell exData) (1, 0) 5] := by
    simp only [runPredictionAnalysis]
    rw [if_neg hne]
    rw [hgen]
  have hsz : (mkPrediction (analyzeCell exData) (1, 0) 5).sampleSize = 1 := by
    show (exData.filter (entryMatches (futureKey (1, 0) 5))).length = 1
    exact exData_hit_length
  have hconf : (mkPrediction (analyzeCell exData) (1, 0) 5).confidence = 0 := by
    show calculatePredictionConfidence (analyzeCell exData (futureKey (1, 0) 5)) = 0
    have hlt : (analyzeCell exData (futureKey (1, 0) 5)).totalCount < 10 := by
      show (exData.filter (entryMatches (futureKey (1, 0) 5))).length < 10
      rw [exData_hit_length]
      omega
    rw [calculatePredictionConfidence, if_pos hlt]
  have hprob1 : (mkPrediction (analyzeCell exData) (1, 0) 5).probability = 1 := by
    show (analyzeCell exData (futureKey (1, 0) 5)).probability = 1
    have h0 : 0 < (analyzeCell exData (futureKey (1, 0) 5)).totalCount := by
      show 0 < (exData.filter (entryMatches (futureKey (1, 0) 5))).length
      rw [exData_hit_length]
      omega
    rw [analyzeCell_probability _ _ h0,
      show ((exData.filter (entryMatches (futureKey (1, 0) 5))).filter
          (fun e => decide (e.state = FlowState))).length = 1 from by
        rw [exData_filter_eq _ (by decide), if_pos (by decide)]
        rfl,
      exData_hit_length]
    norm_num
  refine ⟨hlen, ?_, ?_, ?_, by omega⟩
  · rw [hrun]
    simp only [Option.map_some', List.map_cons, List.map_nil, hsz]
  · rw [hrun]
    simp only [Option.map_some', List.map_cons, List.map_nil, hconf]
  · rw [hrun]
    simp only [Option.map_some', List.map_cons, List.map_nil, hprob1]

/-- Claim C7 (amended): a forecast run on fewer than 100 rows returns no
predictions and leaves the stored prediction state — including the
data-quality label — untouched (so the label still reads `insufficient`
only if no richer run preceded; it is initialised to `insufficient`),
and the data-quality assessment of any such count is `insufficient`. -/
theorem C7_amended : ∀ (d : List Entry) (now : ℕ × ℕ) (st : PredictionData),
    d.length < 100 →
    runPredictionAnalysis (some d) now st = (none, st) ∧
    assessDataQuality d.length = "insufficient" := by
  intro d now st h
  constructor
  · simp only [runPredictionAnalysis]
    rw [if_pos h]
  · rw [assessDataQuality, if_pos h]

/-- Claim C7 witness: the empty history aborts the run and assesses as
insufficient. -/
theorem C7_amended_witness :
    runPredictionAnalysis (some ([] : List Entry)) (0, 0) initialPredictionData =
      (none, initialPredictionData) ∧
    assessDataQuality (List.length ([] : List Entry)) = "insufficient" :=
  C7_amended [] (0, 0) initialPredictionData (by decide)

/-- Claim C7 counterexample: the abort path never writes the
data-quality label, so a 50-row run starting from a state labelled
`low` (reachable: a 150-row run stores exactly `low`) still reports
`low`, not `insufficient`. -/
theorem C7_counterexample :
    (List.replicate 150 exOtherEntry).length = 150 ∧
    (runPredictionAnalysis (some (List.replicate 150 exOtherEntry)) (1, 0)
        initialPredictionData).2.dataQuality = "low" ∧
    (List.replicate 50 exOtherEntry).length < 100 ∧
    (runPredictionAnalysis (some (List.replicate 50 exOtherEntry)) (1, 0)
        exStaleState).1 = none ∧
    (runPredictionAnalysis (some (List.replicate 50 exOtherEntry)) (1, 0)
        exStaleState).2.dataQuality = "low" ∧
    (runPredictionAnalysis (some (List.replicate 50 exOtherEntry)) (1, 0)
        exStaleState).2.dataQuality ≠ "insufficient" := by
  have h50 : (List.replicate 50 exOtherEntry).length < 100 := by decide
  have habort : runPredictionAnalysis (some (List.replicate 50 exOtherEntry)) (1, 0)
      exStaleState = (none, exStaleState) := by
    simp only [runPredictionAnalysis]
    rw [if_pos h50]
  have h150 : ¬((List.replicate 150 exOtherEntry).length < 100) := by decide
  have hstore : (runPredictionAnalysis (some (List.replicate 150 exOtherEntry)) (1, 0)
      initialPredictionData).2.dataQuality =
        assessDataQuality (List.replicate 150 exOtherEntry).length := by
    simp only [runPredictionAnalysis]
    rw [if_neg h150]
  refine ⟨by decide, ?_, h50, ?_, ?_, ?_⟩
  · rw [hstore]
    decide
  · rw [habort]
  · rw [habort]
    rfl
  · rw [habort]
    decide

end StudySpace
